import Mathlib

/-!
Verification development for the HarMoni fall-detection Azure Function app
(`function_app.py`).  The Python source is shallowly embedded below:

* JSON payloads become the inductive type `Json` (objects are association
  lists in insertion order, as produced by `json.loads`, keys unique);
* Python `float` arithmetic is idealised as exact arithmetic: JSON number
  literals are rationals (`ℚ`) and the score computation runs over the
  reals (`ℝ`), with `math.sqrt` as `Real.sqrt`;
* `float(s)` applied to a *string* `s` is kept abstract as a parameter
  `p : String → Option ℚ` threaded through the functions that need it;
* the external world (environment variables, the blob service, the current
  UTC clock, the generated uuid) enters as explicit inputs, and the blob
  write performed by a request is returned as an explicit `UploadAction`
  value so that theorems can speak about side effects.
-/

set_option autoImplicit false

namespace HarMoni

/-- JSON values as produced by `json.loads`.  `num` carries the exact
rational value of the numeric literal; `obj` is the insertion-ordered field
list of a Python `dict` (keys assumed unique, as in a parsed JSON object).
The model identifies Python ints with integral floats. -/
inductive Json where
  | null
  | bool (b : Bool)
  | num (q : ℚ)
  | str (s : String)
  | arr (elems : List Json)
  | obj (fields : List (String × Json))
deriving BEq

/-- Python `dict.get`: the value stored under `key`, if present
(first match; keys of a parsed JSON object are unique). -/
def dictGet (fields : List (String × Json)) (key : String) : Option Json :=
  match fields with
  | [] => none
  | (k, v) :: rest => if k == key then some v else dictGet rest key

/-- Left-pad the decimal representation of `n` with zeros to `width`
characters (the behaviour of `%Y` / `%m` / `%d` and of fractional-part
padding). -/
def padNum (width : ℕ) (n : ℕ) : String :=
  String.mk (List.replicate (width - (toString n).length) '0') ++ toString n

/-- Shortest decimal representation of a rational, mirroring how Python
prints the floats that arise from decimal JSON literals: an integral value
prints without a fractional part, any other decimal value prints with its
shortest exact fraction.  (Rationals needing more than 40 decimal places
fall back to `toString`; they cannot arise from the decimal literals the
model is used on.) -/
def ratDecimalString (q : ℚ) : String :=
  match (List.range 41).find? (fun k => (q * (10 : ℚ) ^ k).den == 1) with
  | some 0 => toString q.num
  | some k =>
      let n := (q * (10 : ℚ) ^ k).num.natAbs
      (if q.num < 0 then "-" else "") ++ toString (n / 10 ^ k) ++ "." ++ padNum k (n % 10 ^ k)
  | none => toString q

/-- Lower-case hexadecimal digit. -/
def hexDigit (n : ℕ) : Char :=
  if n < 10 then Char.ofNat (48 + n) else Char.ofNat (87 + n)

/-- Four-digit lower-case hexadecimal rendering of `n`, as in `\uXXXX`. -/
def hex4 (n : ℕ) : String :=
  String.mk [hexDigit (n / 4096 % 16), hexDigit (n / 256 % 16), hexDigit (n / 16 % 16),
    hexDigit (n % 16)]

/-- Escaping of a single character inside a JSON string literal, following
`json.dumps` with its default `ensure_ascii=True`: quote, backslash and the
named control characters get two-character escapes, every other character
outside the printable ASCII range becomes `\uXXXX` (code points beyond the
BMP are not needed by this model). -/
def escapeChar (c : Char) : String :=
  if c = '"' then "\\\""
  else if c = '\\' then "\\\\"
  else if c = '\n' then "\\n"
  else if c = '\t' then "\\t"
  else if c = '\r' then "\\r"
  else if c.toNat = 8 then "\\b"
  else if c.toNat = 12 then "\\f"
  else if c.toNat < 32 || c.toNat > 126 then "\\u" ++ hex4 c.toNat
  else String.singleton c

/-- A JSON string literal: quoted and escaped as `json.dumps` renders it. -/
def quoteString (s : String) : String :=
  "\"" ++ String.join (s.data.map escapeChar) ++ "\""

mutual

/-- Python `json.dumps` with its default separators `", "` and `": "`. -/
def Json.dumps : Json → String
  | .null => "null"
  | .bool true => "true"
  | .bool false => "false"
  | .num q => ratDecimalString q
  | .str s => quoteString s
  | .arr els => "[" ++ String.intercalate ", " (Json.dumpsElems els) ++ "]"
  | .obj fs => "\x7b" ++ String.intercalate ", " (Json.dumpsFields fs) ++ "\x7d"

/-- Renderings of the elements of a JSON array, in order. -/
def Json.dumpsElems : List Json → List String
  | [] => []
  | e :: es => Json.dumps e :: Json.dumpsElems es

/-- Renderings of the `"key": value` members of a JSON object, in order. -/
def Json.dumpsFields : List (String × Json) → List String
  | [] => []
  | (k, v) :: fs => (quoteString k ++ ": " ++ Json.dumps v) :: Json.dumpsFields fs

end

/-- A calendar date, standing for the `datetime.datetime.utcnow()` value of
the serving process at upload time. -/
structure Date where
  year : ℕ
  month : ℕ
  day : ℕ

/-- The `f"{now:%Y/%m/%d}"` date component of a blob path. -/
def formatDatePath (d : Date) : String :=
  padNum 4 d.year ++ "/" ++ padNum 2 d.month ++ "/" ++ padNum 2 d.day

/-- The environment-dependent state of the module: whether the global
`BLOB_SERVICE_CLIENT` was constructed (a truthy `BLOB_CONNECTION_STRING`),
the `BLOB_CONTAINER_NAME` environment value, the outcome of the external
`upload_blob` call (an oracle for the object store, `.error` carrying
`str(e)` of the raised exception), and the `FUNCTION_KEY` value read by the
optional local key guard. -/
structure BlobConfig where
  hasServiceClient : Bool
  containerName : Option String
  uploadOutcome : Except String Unit
  functionKey : Option String

/-- The blob write performed by a successful `_upload_to_blob` call: the
blob path, the uploaded string and the `overwrite` flag passed to
`upload_blob`. -/
structure UploadAction where
  path : String
  content : String
  overwrite : Bool
deriving BEq

/-- `_upload_to_blob` from the source: checks the two configuration values
(raising `RuntimeError` when `BLOB_SERVICE_CLIENT` is absent or
`BLOB_CONTAINER_NAME` is missing or empty), builds the path
`fall-detection/{now:%Y/%m/%d}/{uuid}.json` from the server's current UTC
time and a fresh uuid, and uploads `json.dumps(body)` with
`overwrite=True`.  `.error` carries `str(e)` of the exception seen by the
caller. -/
def _upload_to_blob (cfg : BlobConfig) (now : Date) (uuid : String) (body : Json) :
    Except String UploadAction :=
  match cfg.hasServiceClient with
  | false => .error "BLOB_CONNECTION_STRING is missing or invalid."
  | true =>
    match cfg.containerName with
    | none => .error "BLOB_CONTAINER_NAME is missing."
    | some name =>
      if name == "" then .error "BLOB_CONTAINER_NAME is missing."
      else
        match cfg.uploadOutcome with
        | .error e => .error e
        | .ok _ =>
            .ok { path := "fall-detection/" ++ formatDatePath now ++ "/" ++ uuid ++ ".json"
                  content := Json.dumps body
                  overwrite := true }

/-- The fall-decision threshold constant of the source. -/
noncomputable def THRESHOLD : ℝ := 0.7

/-- The local key guard toggle of the source (off). -/
def ENABLE_LOCAL_KEY_GUARD : Bool := false

/-- The server fall decision, `fall_score >= THRESHOLD`. -/
def serverIsFall (score : ℝ) : Prop := score ≥ THRESHOLD

/-- `_to_float` from the source applied to `sensor.get(name)`: Python
`float(x)` succeeds on numbers and booleans, on strings exactly when the
abstract string parse `p` does, and fails on a missing value, `null`,
arrays and objects; failure raises `ValueError(f"{name} must be a number")`.
-/
def _to_float (p : String → Option ℚ) (x : Option Json) (name : String) : Except String ℚ :=
  match x with
  | some (.num q) => .ok q
  | some (.bool b) => .ok (if b then 1 else 0)
  | some (.str s) =>
    match p s with
    | some q => .ok q
    | none => .error (name ++ " must be a number")
  | _ => .error (name ++ " must be a number")

/-- The six `_to_float` coercions performed by `_calc_fall_score`, in
source order (`ax, ay, az, gx, gy, gz`); the first failure propagates. -/
def getSensorFloats (p : String → Option ℚ) (sensor : List (String × Json)) :
    Except String (ℚ × ℚ × ℚ × ℚ × ℚ × ℚ) :=
  match _to_float p (dictGet sensor "ax") "sensor.ax" with
  | .error e => .error e
  | .ok ax =>
  match _to_float p (dictGet sensor "ay") "sensor.ay" with
  | .error e => .error e
  | .ok ay =>
  match _to_float p (dictGet sensor "az") "sensor.az" with
  | .error e => .error e
  | .ok az =>
  match _to_float p (dictGet sensor "gx") "sensor.gx" with
  | .error e => .error e
  | .ok gx =>
  match _to_float p (dictGet sensor "gy") "sensor.gy" with
  | .error e => .error e
  | .ok gy =>
  match _to_float p (dictGet sensor "gz") "sensor.gz" with
  | .error e => .error e
  | .ok gz => .ok (ax, ay, az, gx, gy, gz)

/-- The arithmetic core of `_calc_fall_score`, over exact reals: magnitude
of the acceleration and gyro vectors, deviation of the former from 1g,
normalisation of both by 6, weighted sum, final clamp to `[0, 1]`. -/
noncomputable def calcFallScore (ax ay az gx gy gz : ℝ) : ℝ :=
  let a_mag := Real.sqrt (ax ^ 2 + ay ^ 2 + az ^ 2)
  let g_mag := Real.sqrt (gx ^ 2 + gy ^ 2 + gz ^ 2)
  let acc_dev := |a_mag - 9.81|
  let acc_score := min 1 (acc_dev / 6)
  let gyro_score := min 1 (g_mag / 6)
  let score := 0.7 * acc_score + 0.3 * gyro_score
  max 0 (min 1 score)

/-- Unfolded form of `calcFallScore`. -/
theorem calcFallScore_def (ax ay az gx gy gz : ℝ) :
    calcFallScore ax ay az gx gy gz =
      max 0 (min 1 (0.7 * min 1 (|Real.sqrt (ax ^ 2 + ay ^ 2 + az ^ 2) - 9.81| / 6) +
        0.3 * min 1 (Real.sqrt (gx ^ 2 + gy ^ 2 + gz ^ 2) / 6))) := rfl

/-- `_calc_fall_score` from the source: coerce the six sensor fields (the
first `ValueError` propagates), then compute the score. -/
noncomputable def _calc_fall_score (p : String → Option ℚ) (sensor : List (String × Json)) :
    Except String ℝ :=
  match getSensorFloats p sensor with
  | .error e => .error e
  | .ok (ax, ay, az, gx, gy, gz) => .ok (calcFallScore ax ay az gx gy gz)

/-- Clamping of `v` to the interval `[lo, hi]` (the spec's
`clamp(v, lo, hi)`; the source writes it `max(lo, min(hi, v))`). -/
noncomputable def clamp (v lo hi : ℝ) : ℝ := max lo (min hi v)

open Classical in
/-- Round-half-to-even on exact reals (the tie rule of Python `round`). -/
noncomputable def roundHalfEven (x : ℝ) : ℤ :=
  if Int.fract x = 1 / 2 then 2 * round (x / 2) else round x

/-- Python `round(x, 4)` idealised over exact reals. -/
noncomputable def pyRound4 (x : ℝ) : ℝ := (roundHalfEven (x * 10 ^ 4) : ℝ) / 10 ^ 4

/-- An ingestion request as `http_trigger` sees it: the result of
`req.get_json()` (`.error` for unparsable JSON) and the local-guard key
material (`x-functions-key` header or `code` parameter, collapsed). -/
structure Request where
  body : Except Unit Json
  providedKey : Option String

/-- The JSON body of the 200 response: `threshold`, rounded `fallScore`,
server `isFall`, the blob path, and the `received` echo of the submitted
`timestamp` / `sensor` / `isFall` fields. -/
structure OkBody where
  threshold : ℝ
  fallScore : ℝ
  isFall : Prop
  blobPath : String
  receivedTimestamp : String
  receivedSensor : List (String × Json)
  receivedIsFall : Bool

/-- An HTTP response of the function: `ok` is the 200 response with its
JSON body; `error c msg` is a response with status `c` and JSON body
`{"status": "error", "message": msg}`; `unauthorized` is the plain-text
401 of the local key guard; `unhandled` stands for an exception escaping
the handler (the hosting runtime turns it into a 500). -/
inductive HttpResponse where
  | ok (body : OkBody)
  | error (statusCode : ℕ) (message : String)
  | unauthorized
  | unhandled

/-- The HTTP status code of a response. -/
def HttpResponse.status : HttpResponse → ℕ
  | .ok _ => 200
  | .error c _ => c
  | .unauthorized => 401
  | .unhandled => 500

/-- The local key guard condition: a truthy `FUNCTION_KEY` is configured
and the provided key differs from it. -/
def guardRejects : Option String → Option String → Bool
  | some k, provided => k != "" && provided != some k
  | none, _ => false

/-- `http_trigger` from the source.  Inputs beyond the request: the module
configuration `cfg`, the abstract string-to-float parse `p`, the server's
current UTC date `now` and the generated `uuid`.  Returns the HTTP
response together with the blob write performed (`none` when no blob was
written).  A non-object JSON body makes `body.get` raise
(`HttpResponse.unhandled`). -/
noncomputable def http_trigger (cfg : BlobConfig) (p : String → Option ℚ) (now : Date)
    (uuid : String) (req : Request) : HttpResponse × Option UploadAction :=
  if ENABLE_LOCAL_KEY_GUARD && guardRejects cfg.functionKey req.providedKey then
    (.unauthorized, none)
  else
    match req.body with
    | .error _ => (.error 400 "Invalid JSON", none)
    | .ok body =>
      match body with
      | .obj fields =>
        match dictGet fields "timestamp" with
        | some (.str ts) =>
          match dictGet fields "sensor" with
          | some (.obj sensorFields) =>
            match dictGet fields "isFall" with
            | some (.bool clientIsFall) =>
              match _calc_fall_score p sensorFields with
              | .error msg => (.error 400 msg, none)
              | .ok fall_score =>
                match _upload_to_blob cfg now uuid body with
                | .error e => (.error 500 ("Blob upload failed: " ++ e), none)
                | .ok act =>
                    (.ok { threshold := THRESHOLD
                           fallScore := pyRound4 fall_score
                           isFall := serverIsFall fall_score
                           blobPath := act.path
                           receivedTimestamp := ts
                           receivedSensor := sensorFields
                           receivedIsFall := clientIsFall }, some act)
            | _ => (.error 400 "'isFall' must be a boolean", none)
          | _ => (.error 400 "'sensor' must be an object", none)
        | _ => (.error 400 "'timestamp' must be an ISO8601 string", none)
      | _ => (.unhandled, none)

/-- Consume `n` decimal digits from the front of the character list,
returning the rest; fails when fewer digits are available. -/
def takeDigits : ℕ → List Char → Option (List Char)
  | 0, l => some l
  | n + 1, c :: l => if c.isDigit then takeDigits n l else none
  | _ + 1, [] => none

/-- Consume one or more decimal digits from the front of the character
list, returning the rest; fails when none is available. -/
def takeDigits1 : List Char → Option (List Char)
  | c :: l =>
    if c.isDigit then
      some (l.dropWhile Char.isDigit)
    else none
  | [] => none

/-- A two-digit-colon-two-digit numeric UTC offset, consuming the whole
rest of the string. -/
def offsetHHMM (l : List Char) : Bool :=
  match takeDigits 2 l with
  | some (':' :: r) => takeDigits 2 r == some []
  | _ => false

/-- An optional trailing UTC offset: nothing, `Z`, or `±HH:MM`. -/
def offsetPart (l : List Char) : Bool :=
  match l with
  | [] => true
  | ['Z'] => true
  | '+' :: r => offsetHHMM r
  | '-' :: r => offsetHHMM r
  | _ => false

/-- An optional fractional-seconds part followed by the offset. -/
def fracPart (l : List Char) : Bool :=
  match l with
  | '.' :: r =>
    match takeDigits1 r with
    | some r2 => offsetPart r2
    | none => false
  | _ => offsetPart l

/-- Optional `:SS[.ffffff]` seconds followed by the offset. -/
def secondsPart (l : List Char) : Bool :=
  match l with
  | ':' :: r =>
    match takeDigits 2 r with
    | some r2 => fracPart r2
    | none => false
  | _ => offsetPart l

/-- The `HH:MM[:SS[.ffffff]][offset]` time-of-day part. -/
def timePart (l : List Char) : Bool :=
  match takeDigits 2 l with
  | some (':' :: r) =>
    match takeDigits 2 r with
    | some r2 => secondsPart r2
    | none => false
  | _ => false

/-- Modelled from the spec: missing from `src/`, where the validator never
parses the timestamp content.  "`timestamp` is a string parseable as
ISO-8601 (accepting a trailing `Z` as UTC offset)" — an ISO-8601 timestamp
in the calendar-date format the pipeline's documented examples use:
`YYYY-MM-DD`, optionally followed by `T` (or a space) and
`HH:MM[:SS[.ffffff]]`, optionally terminated by `Z` or a `±HH:MM` offset.
Every ISO-8601 datetime begins with a four-digit year, so any string
rejected for lacking one (such as `"hello"`) is not ISO-8601 under any
reading. -/
def parseableISO8601 (s : String) : Bool :=
  match takeDigits 4 s.data with
  | some ('-' :: r1) =>
    match takeDigits 2 r1 with
    | some ('-' :: r2) =>
      match takeDigits 2 r2 with
      | some [] => true
      | some (c :: r3) => (c == 'T' || c == ' ') && timePart r3
      | none => false
    | _ => false
  | _ => false

/-- Outcome of the webhook POST attempted by the queue consumer. -/
inductive ForwardOutcome where
  | delivered (statusCode : ℕ)
  | networkError
  | timedOut

/-- Observable result of handling one queue message: whether the message
was acknowledged as consumed, whether an exception escaped the handler,
and whether a webhook POST was attempted. -/
structure ConsumerTrace where
  acknowledged : Bool
  exceptionPropagated : Bool
  forwardAttempted : Bool

/-- Modelled from the spec: the queue consumer / notifier of §4.5 is
absent from `src/`.  States per message: an unparsable body is logged and
acknowledged without forwarding; a missing webhook URL is logged and
acknowledged without forwarding; otherwise the message is POSTed to the
webhook and — whatever the status code, network error or timeout — the
message is acknowledged and no exception escapes. -/
def processQueueMessage (parsedBody : Option Json) (webhookUrl : Option String)
    (outcome : ForwardOutcome) : ConsumerTrace :=
  match parsedBody with
  | none => { acknowledged := true, exceptionPropagated := false, forwardAttempted := false }
  | some _ =>
    match webhookUrl with
    | none => { acknowledged := true, exceptionPropagated := false, forwardAttempted := false }
    | some _ =>
      match outcome with
      | .delivered _ => { acknowledged := true, exceptionPropagated := false, forwardAttempted := true }
      | .networkError => { acknowledged := true, exceptionPropagated := false, forwardAttempted := true }
      | .timedOut => { acknowledged := true, exceptionPropagated := false, forwardAttempted := true }

/-- A string parse that never succeeds (sample instance of the abstract
`float(str)` parameter; none of the sample sensors carry string fields). -/
def pZero : String → Option ℚ := fun _ => none

/-- The sample sensor object of the source's docstring. -/
def sensorSample : List (String × Json) :=
  [("ax", .num 0.05), ("ay", .num (-0.12)), ("az", .num 9.78),
   ("gx", .num 0.02), ("gy", .num 0.01), ("gz", .num (-0.03))]

/-- The sample sensor object with its `ax` field removed. -/
def sensorMissingAx : List (String × Json) :=
  [("ay", .num (-0.12)), ("az", .num 9.78),
   ("gx", .num 0.02), ("gy", .num 0.01), ("gz", .num (-0.03))]

/-- A sample server date. -/
def nowSample : Date := { year := 2025, month := 12, day := 16 }

/-- A sample generated uuid. -/
def uuidSample : String := "123e4567-e89b-12d3-a456-426614174000"

/-- A fully configured environment whose upload succeeds. -/
def cfgOk : BlobConfig :=
  { hasServiceClient := true, containerName := some "functoblob-data",
    uploadOutcome := .ok (), functionKey := none }

/-- An environment with no blob connection string configured. -/
def cfgNoConn : BlobConfig :=
  { hasServiceClient := false, containerName := some "functoblob-data",
    uploadOutcome := .ok (), functionKey := none }

/-- A schema-valid sample request body. -/
def bodyOk : List (String × Json) :=
  [("timestamp", .str "2025-12-16T15:42:30.123Z"), ("sensor", .obj sensorSample),
   ("isFall", .bool false)]

/-- A sample body whose timestamp string is not ISO-8601. -/
def bodyHello : List (String × Json) :=
  [("timestamp", .str "hello"), ("sensor", .obj sensorSample), ("isFall", .bool false)]

/-- A sample body whose sensor object is missing `ax`. -/
def bodyMissingAx : List (String × Json) :=
  [("timestamp", .str "2025-12-16T15:42:30.123Z"), ("sensor", .obj sensorMissingAx),
   ("isFall", .bool false)]

/-- Every `_to_float` failure message is `"{name} must be a number"`. -/
theorem _to_float_error_shape (p : String → Option ℚ) (x : Option Json) (name msg : String)
    (h : _to_float p x name = .error msg) : msg = name ++ " must be a number" := by
  rcases x with _ | j
  · simp only [_to_float, Except.error.injEq] at h
    exact h.symm
  · cases j with
    | null => simp only [_to_float, Except.error.injEq] at h; exact h.symm
    | bool b => simp [_to_float] at h
    | num q => simp [_to_float] at h
    | str s =>
      rcases hp : p s with _ | q
      · simp only [_to_float, hp, Except.error.injEq] at h
        exact h.symm
      · simp [_to_float, hp] at h
    | arr l => simp only [_to_float, Except.error.injEq] at h; exact h.symm
    | obj o => simp only [_to_float, Except.error.injEq] at h; exact h.symm

/-- Every `getSensorFloats` failure message names one of the six sensor
fields. -/
theorem getSensorFloats_error_shape (p : String → Option ℚ) (sf : List (String × Json))
    (msg : String) (h : getSensorFloats p sf = .error msg) :
    ∃ name, name ∈ ["sensor.ax", "sensor.ay", "sensor.az",
        "sensor.gx", "sensor.gy", "sensor.gz"] ∧
      msg = name ++ " must be a number" := by
  unfold getSensorFloats at h
  rcases h1 : _to_float p (dictGet sf "ax") "sensor.ax" with e | ax
  · rw [h1] at h
    exact ⟨"sensor.ax", by simp, by
      have := _to_float_error_shape p (dictGet sf "ax") "sensor.ax" e h1
      simp only [Except.error.injEq] at h
      rw [← h, this]⟩
  · rw [h1] at h
    rcases h2 : _to_float p (dictGet sf "ay") "sensor.ay" with e | ay
    · rw [h2] at h
      exact ⟨"sensor.ay", by simp, by
        have := _to_float_error_shape p (dictGet sf "ay") "sensor.ay" e h2
        simp only [Except.error.injEq] at h
        rw [← h, this]⟩
    · rw [h2] at h
      rcases h3 : _to_float p (dictGet sf "az") "sensor.az" with e | az
      · rw [h3] at h
        exact ⟨"sensor.az", by simp, by
          have := _to_float_error_shape p (dictGet sf "az") "sensor.az" e h3
          simp only [Except.error.injEq] at h
          rw [← h, this]⟩
      · rw [h3] at h
        rcases h4 : _to_float p (dictGet sf "gx") "sensor.gx" with e | gx
        · rw [h4] at h
          exact ⟨"sensor.gx", by simp, by
            have := _to_float_error_shape p (dictGet sf "gx") "sensor.gx" e h4
            simp only [Except.error.injEq] at h
            rw [← h, this]⟩
        · rw [h4] at h
          rcases h5 : _to_float p (dictGet sf "gy") "sensor.gy" with e | gy
          · rw [h5] at h
            exact ⟨"sensor.gy", by simp, by
              have := _to_float_error_shape p (dictGet sf "gy") "sensor.gy" e h5
              simp only [Except.error.injEq] at h
              rw [← h, this]⟩
          · rw [h5] at h
            rcases h6 : _to_float p (dictGet sf "gz") "sensor.gz" with e | gz
            · rw [h6] at h
              exact ⟨"sensor.gz", by simp, by
                have := _to_float_error_shape p (dictGet sf "gz") "sensor.gz" e h6
                simp only [Except.error.injEq] at h
                rw [← h, this]⟩
            · rw [h6] at h
              simp at h

/-- A `_calc_fall_score` failure is a `getSensorFloats` failure. -/
theorem _calc_fall_score_error (p : String → Option ℚ) (sf : List (String × Json))
    (msg : String) (h : _calc_fall_score p sf = .error msg) :
    getSensorFloats p sf = .error msg := by
  unfold _calc_fall_score at h
  rcases hg : getSensorFloats p sf with e | t
  · rw [hg] at h
    simp only [Except.error.injEq] at h
    rw [h]
  · obtain ⟨a, b, c, d, e', f⟩ := t
    rw [hg] at h
    simp at h

/-- Reduction of `http_trigger` on a schema-valid request whose upload
fails. -/
theorem http_trigger_upload_error (cfg : BlobConfig) (p : String → Option ℚ) (now : Date)
    (uuid : String) (pk : Option String) (fields sf : List (String × Json)) (ts : String)
    (b : Bool) (score : ℝ) (e : String)
    (hts : dictGet fields "timestamp" = some (.str ts))
    (hsf : dictGet fields "sensor" = some (.obj sf))
    (hb : dictGet fields "isFall" = some (.bool b))
    (hscore : _calc_fall_score p sf = .ok score)
    (hup : _upload_to_blob cfg now uuid (.obj fields) = .error e) :
    http_trigger cfg p now uuid ⟨.ok (.obj fields), pk⟩ =
      (.error 500 ("Blob upload failed: " ++ e), none) := by
  simp [http_trigger, ENABLE_LOCAL_KEY_GUARD, hts, hsf, hb, hscore, hup]

/-- Reduction of `http_trigger` on a schema-valid request whose upload
succeeds. -/
theorem http_trigger_upload_ok (cfg : BlobConfig) (p : String → Option ℚ) (now : Date)
    (uuid : String) (pk : Option String) (fields sf : List (String × Json)) (ts : String)
    (b : Bool) (score : ℝ) (act : UploadAction)
    (hts : dictGet fields "timestamp" = some (.str ts))
    (hsf : dictGet fields "sensor" = some (.obj sf))
    (hb : dictGet fields "isFall" = some (.bool b))
    (hscore : _calc_fall_score p sf = .ok score)
    (hup : _upload_to_blob cfg now uuid (.obj fields) = .ok act) :
    http_trigger cfg p now uuid ⟨.ok (.obj fields), pk⟩ =
      (.ok { threshold := THRESHOLD
             fallScore := pyRound4 score
             isFall := serverIsFall score
             blobPath := act.path
             receivedTimestamp := ts
             receivedSensor := sf
             receivedIsFall := b }, some act) := by
  simp [http_trigger, ENABLE_LOCAL_KEY_GUARD, hts, hsf, hb, hscore, hup]

/-- A fully configured environment with a succeeding store uploads the
serialized body under the date-and-uuid partition path, in overwrite
mode. -/
theorem _upload_to_blob_ok (cfg : BlobConfig) (now : Date) (uuid : String) (body : Json)
    (hclient : cfg.hasServiceClient = true)
    (hname : ∃ n, cfg.containerName = some n ∧ n ≠ "")
    (hout : cfg.uploadOutcome = .ok ()) :
    _upload_to_blob cfg now uuid body =
      .ok { path := "fall-detection/" ++ formatDatePath now ++ "/" ++ uuid ++ ".json"
            content := Json.dumps body
            overwrite := true } := by
  obtain ⟨n, hn, hne⟩ := hname
  simp [_upload_to_blob, hclient, hn, hout, hne]

/-- C1: for every sensor object whose six fields coerce to numbers, the
score engine returns exactly
`clamp(0.7·min(1, |sqrt(ax²+ay²+az²) − 9.81|/6) + 0.3·min(1, sqrt(gx²+gy²+gz²)/6), 0, 1)`. -/
theorem score_engine_formula (p : String → Option ℚ) (sensor : List (String × Json))
    (ax ay az gx gy gz : ℚ)
    (h : getSensorFloats p sensor = .ok (ax, ay, az, gx, gy, gz)) :
    _calc_fall_score p sensor =
      .ok (clamp (0.7 * min 1 (|Real.sqrt ((ax : ℝ) ^ 2 + (ay : ℝ) ^ 2 + (az : ℝ) ^ 2) - 9.81| / 6) +
        0.3 * min 1 (Real.sqrt ((gx : ℝ) ^ 2 + (gy : ℝ) ^ 2 + (gz : ℝ) ^ 2) / 6)) 0 1) := by
  unfold _calc_fall_score
  rw [h]
  rfl

/-- Witness for C1 at the docstring's sample sensor. -/
theorem score_engine_formula_witness :
    getSensorFloats pZero sensorSample = .ok (0.05, -0.12, 9.78, 0.02, 0.01, -0.03) ∧
    _calc_fall_score pZero sensorSample =
      .ok (clamp (0.7 * min 1 (|Real.sqrt (((0.05 : ℚ) : ℝ) ^ 2 + ((-0.12 : ℚ) : ℝ) ^ 2 +
          ((9.78 : ℚ) : ℝ) ^ 2) - 9.81| / 6) +
        0.3 * min 1 (Real.sqrt (((0.02 : ℚ) : ℝ) ^ 2 + ((0.01 : ℚ) : ℝ) ^ 2 +
          ((-0.03 : ℚ) : ℝ) ^ 2) / 6)) 0 1) :=
  ⟨rfl, score_engine_formula pZero sensorSample 0.05 (-0.12) 9.78 0.02 0.01 (-0.03) rfl⟩

/-- C2 counterexample: the endpoint accepts (status 200, with persistence
configured) a timestamp string that is not parseable as ISO-8601
(`"hello"`), so ISO-8601 parseability is not enforced and a non-parseable
timestamp string is not rejected with a 400. -/
theorem timestamp_iso_not_enforced :
    parseableISO8601 "hello" = false ∧
    (http_trigger cfgOk pZero nowSample uuidSample ⟨.ok (.obj bodyHello), none⟩).1.status = 200 :=
  ⟨by decide, rfl⟩

/-- C2 (amended): the validator accepts the timestamp field iff it is a
string — no ISO-8601 parsing is performed on its content; a non-string
timestamp is rejected with a 400 naming the field. -/
theorem timestamp_string_only_check (cfg : BlobConfig) (p : String → Option ℚ) (now : Date)
    (uuid : String) (pk : Option String) (fields sf : List (String × Json)) (b : Bool)
    (score : ℝ)
    (hsf : dictGet fields "sensor" = some (.obj sf))
    (hb : dictGet fields "isFall" = some (.bool b))
    (hscore : _calc_fall_score p sf = .ok score) :
    ((∀ s, dictGet fields "timestamp" ≠ some (.str s)) →
      http_trigger cfg p now uuid ⟨.ok (.obj fields), pk⟩ =
        (.error 400 "'timestamp' must be an ISO8601 string", none))
  ∧ (∀ s, dictGet fields "timestamp" = some (.str s) →
      (http_trigger cfg p now uuid ⟨.ok (.obj fields), pk⟩).1.status ≠ 400) := by
  constructor
  · intro h
    rcases hts : dictGet fields "timestamp" with _ | j
    · simp [http_trigger, ENABLE_LOCAL_KEY_GUARD, hts]
    · cases j with
      | str s => exact absurd hts (h s)
      | null => simp [http_trigger, ENABLE_LOCAL_KEY_GUARD, hts]
      | bool c => simp [http_trigger, ENABLE_LOCAL_KEY_GUARD, hts]
      | num q => simp [http_trigger, ENABLE_LOCAL_KEY_GUARD, hts]
      | arr l => simp [http_trigger, ENABLE_LOCAL_KEY_GUARD, hts]
      | obj o => simp [http_trigger, ENABLE_LOCAL_KEY_GUARD, hts]
  · intro s hts
    rcases hup : _upload_to_blob cfg now uuid (.obj fields) with e | act
    · rw [http_trigger_upload_error cfg p now uuid pk fields sf s b score e hts hsf hb hscore hup]
      simp [HttpResponse.status]
    · rw [http_trigger_upload_ok cfg p now uuid pk fields sf s b score act hts hsf hb hscore hup]
      simp [HttpResponse.status]

/-- Witness for C2 (amended): the non-ISO string `"hello"` is accepted
(no 400). -/
theorem timestamp_string_only_check_witness :
    (http_trigger cfgOk pZero nowSample uuidSample ⟨.ok (.obj bodyHello), none⟩).1.status ≠ 400 :=
  (timestamp_string_only_check cfgOk pZero nowSample uuidSample none bodyHello sensorSample
    false _ rfl rfl rfl).2 "hello" rfl

/-- C3: every schema violation — non-string timestamp, non-object sensor,
non-boolean isFall, or a sensor field missing or not coercible to a number
— yields a 400 response whose message names the offending field, and no
blob write is performed. -/
theorem schema_violation_handling (cfg : BlobConfig) (p : String → Option ℚ) (now : Date)
    (uuid : String) (pk : Option String) (fields : List (String × Json)) :
    ((∀ s, dictGet fields "timestamp" ≠ some (.str s)) →
      http_trigger cfg p now uuid ⟨.ok (.obj fields), pk⟩ =
        (.error 400 "'timestamp' must be an ISO8601 string", none))
  ∧ (∀ ts, dictGet fields "timestamp" = some (.str ts) →
      (∀ sf, dictGet fields "sensor" ≠ some (.obj sf)) →
      http_trigger cfg p now uuid ⟨.ok (.obj fields), pk⟩ =
        (.error 400 "'sensor' must be an object", none))
  ∧ (∀ ts sf, dictGet fields "timestamp" = some (.str ts) →
      dictGet fields "sensor" = some (.obj sf) →
      (∀ b, dictGet fields "isFall" ≠ some (.bool b)) →
      http_trigger cfg p now uuid ⟨.ok (.obj fields), pk⟩ =
        (.error 400 "'isFall' must be a boolean", none))
  ∧ (∀ ts sf b msg, dictGet fields "timestamp" = some (.str ts) →
      dictGet fields "sensor" = some (.obj sf) →
      dictGet fields "isFall" = some (.bool b) →
      _calc_fall_score p sf = .error msg →
      http_trigger cfg p now uuid ⟨.ok (.obj fields), pk⟩ = (.error 400 msg, none) ∧
      ∃ name, name ∈ ["sensor.ax", "sensor.ay", "sensor.az",
          "sensor.gx", "sensor.gy", "sensor.gz"] ∧
        msg = name ++ " must be a number") := by
  refine ⟨?_, ?_, ?_, ?_⟩
  · intro h
    rcases hts : dictGet fields "timestamp" with _ | j
    · simp [http_trigger, ENABLE_LOCAL_KEY_GUARD, hts]
    · cases j with
      | str s => exact absurd hts (h s)
      | null => simp [http_trigger, ENABLE_LOCAL_KEY_GUARD, hts]
      | bool c => simp [http_trigger, ENABLE_LOCAL_KEY_GUARD, hts]
      | num q => simp [http_trigger, ENABLE_LOCAL_KEY_GUARD, hts]
      | arr l => simp [http_trigger, ENABLE_LOCAL_KEY_GUARD, hts]
      | obj o => simp [http_trigger, ENABLE_LOCAL_KEY_GUARD, hts]
  · intro ts hts h
    rcases hsf : dictGet fields "sensor" with _ | j
    · simp [http_trigger, ENABLE_LOCAL_KEY_GUARD, hts, hsf]
    · cases j with
      | obj o => exact absurd hsf (h o)
      | null => simp [http_trigger, ENABLE_LOCAL_KEY_GUARD, hts, hsf]
      | bool c => simp [http_trigger, ENABLE_LOCAL_KEY_GUARD, hts, hsf]
      | num q => simp [http_trigger, ENABLE_LOCAL_KEY_GUARD, hts, hsf]
      | str s => simp [http_trigger, ENABLE_LOCAL_KEY_GUARD, hts, hsf]
      | arr l => simp [http_trigger, ENABLE_LOCAL_KEY_GUARD, hts, hsf]
  · intro ts sf hts hsf h
    rcases hb : dictGet fields "isFall" with _ | j
    · simp [http_trigger, ENABLE_LOCAL_KEY_GUARD, hts, hsf, hb]
    · cases j with
      | bool c => exact absurd hb (h c)
      | null => simp [http_trigger, ENABLE_LOCAL_KEY_GUARD, hts, hsf, hb]
      | num q => simp [http_trigger, ENABLE_LOCAL_KEY_GUARD, hts, hsf, hb]
      | str s => simp [http_trigger, ENABLE_LOCAL_KEY_GUARD, hts, hsf, hb]
      | arr l => simp [http_trigger, ENABLE_LOCAL_KEY_GUARD, hts, hsf, hb]
      | obj o => simp [http_trigger, ENABLE_LOCAL_KEY_GUARD, hts, hsf, hb]
  · intro ts sf b msg hts hsf hb hmsg
    refine ⟨by simp [http_trigger, ENABLE_LOCAL_KEY_GUARD, hts, hsf, hb, hmsg], ?_⟩
    exact getSensorFloats_error_shape p sf msg (_calc_fall_score_error p sf msg hmsg)

/-- Witness for C3: a request missing `sensor.ax` yields a 400 referencing
`sensor.ax` and performs no blob write. -/
theorem schema_violation_handling_witness :
    http_trigger cfgOk pZero nowSample uuidSample ⟨.ok (.obj bodyMissingAx), none⟩ =
      (.error 400 "sensor.ax must be a number", none) ∧
    ∃ name, name ∈ ["sensor.ax", "sensor.ay", "sensor.az",
        "sensor.gx", "sensor.gy", "sensor.gz"] ∧
      "sensor.ax must be a number" = name ++ " must be a number" :=
  (schema_violation_handling cfgOk pZero nowSample uuidSample none bodyMissingAx).2.2.2
    "2025-12-16T15:42:30.123Z" sensorMissingAx false "sensor.ax must be a number"
    rfl rfl rfl rfl

/-- C4: for every schema-valid request, the response is 200 iff the blob
upload succeeded; any storage failure (a missing configuration value
included) yields a 500 whose JSON body is `status:"error"` with the
failure message, and no silent success. -/
theorem persistence_tied_response (cfg : BlobConfig) (p : String → Option ℚ) (now : Date)
    (uuid : String) (pk : Option String) (fields sf : List (String × Json)) (ts : String)
    (b : Bool) (score : ℝ)
    (hts : dictGet fields "timestamp" = some (.str ts))
    (hsf : dictGet fields "sensor" = some (.obj sf))
    (hb : dictGet fields "isFall" = some (.bool b))
    (hscore : _calc_fall_score p sf = .ok score) :
    ((http_trigger cfg p now uuid ⟨.ok (.obj fields), pk⟩).1.status = 200 ↔
      ∃ act, _upload_to_blob cfg now uuid (.obj fields) = .ok act)
  ∧ (∀ e, _upload_to_blob cfg now uuid (.obj fields) = .error e →
      http_trigger cfg p now uuid ⟨.ok (.obj fields), pk⟩ =
        (.error 500 ("Blob upload failed: " ++ e), none))
  ∧ (cfg.hasServiceClient = false →
      _upload_to_blob cfg now uuid (.obj fields) =
        .error "BLOB_CONNECTION_STRING is missing or invalid.") := by
  refine ⟨?_, ?_, ?_⟩
  · rcases hup : _upload_to_blob cfg now uuid (.obj fields) with e | act
    · rw [http_trigger_upload_error cfg p now uuid pk fields sf ts b score e hts hsf hb hscore hup]
      constructor
      · intro h
        simp [HttpResponse.status] at h
      · rintro ⟨act, hact⟩
        exact absurd hact (by simp)
    · rw [http_trigger_upload_ok cfg p now uuid pk fields sf ts b score act hts hsf hb hscore hup]
      exact ⟨fun _ => ⟨act, rfl⟩, fun _ => rfl⟩
  · intro e hup
    exact http_trigger_upload_error cfg p now uuid pk fields sf ts b score e hts hsf hb hscore hup
  · intro h
    simp [_upload_to_blob, h]

/-- Witness for C4: with no blob connection string configured, a valid
request yields the 500 storage-failure response and no write. -/
theorem persistence_tied_response_witness :
    http_trigger cfgNoConn pZero nowSample uuidSample ⟨.ok (.obj bodyOk), none⟩ =
      (.error 500 ("Blob upload failed: " ++ "BLOB_CONNECTION_STRING is missing or invalid."),
        none) :=
  (persistence_tied_response cfgNoConn pZero nowSample uuidSample none bodyOk sensorSample
    "2025-12-16T15:42:30.123Z" false _ rfl rfl rfl rfl).2.1
    "BLOB_CONNECTION_STRING is missing or invalid." rfl

/-- C5 counterexample: a validation-passing request is persisted and
served with no `ingestedAt` anywhere: the stored blob is exactly the
serialization of the original body (which has no `ingestedAt` key) and the
response echoes exactly the submitted fields. -/
theorem ingested_at_not_stamped :
    dictGet bodyOk "ingestedAt" = none ∧
    (http_trigger cfgOk pZero nowSample uuidSample ⟨.ok (.obj bodyOk), none⟩).2 =
      some { path := "fall-detection/" ++ formatDatePath nowSample ++ "/" ++ uuidSample ++ ".json"
             content := Json.dumps (.obj bodyOk)
             overwrite := true } ∧
    ∃ ob, (http_trigger cfgOk pZero nowSample uuidSample ⟨.ok (.obj bodyOk), none⟩).1 = .ok ob ∧
      ob.receivedTimestamp = "2025-12-16T15:42:30.123Z" ∧
      ob.receivedSensor = sensorSample ∧ ob.receivedIsFall = false :=
  ⟨rfl, rfl, ⟨_, rfl, rfl, rfl, rfl⟩⟩

/-- C5 (amended): for every request that passes validation, no
`ingestedAt` field is stamped: when storage is configured and the upload
succeeds, the persisted record is exactly the JSON serialization of the
original request body, and the response's `received` object echoes exactly
the submitted timestamp, sensor and isFall. -/
theorem no_ingested_at_stamp (cfg : BlobConfig) (p : String → Option ℚ) (now : Date)
    (uuid : String) (pk : Option String) (fields sf : List (String × Json)) (ts : String)
    (b : Bool) (score : ℝ)
    (hts : dictGet fields "timestamp" = some (.str ts))
    (hsf : dictGet fields "sensor" = some (.obj sf))
    (hb : dictGet fields "isFall" = some (.bool b))
    (hscore : _calc_fall_score p sf = .ok score)
    (hclient : cfg.hasServiceClient = true)
    (hname : ∃ n, cfg.containerName = some n ∧ n ≠ "")
    (hout : cfg.uploadOutcome = .ok ()) :
    ∃ act ob,
      http_trigger cfg p now uuid ⟨.ok (.obj fields), pk⟩ = (.ok ob, some act) ∧
      act.content = Json.dumps (.obj fields) ∧
      ob.receivedTimestamp = ts ∧ ob.receivedSensor = sf ∧ ob.receivedIsFall = b := by
  have hup := _upload_to_blob_ok cfg now uuid (.obj fields) hclient hname hout
  exact ⟨_, _,
    http_trigger_upload_ok cfg p now uuid pk fields sf ts b score _ hts hsf hb hscore hup,
    rfl, rfl, rfl, rfl⟩

/-- Witness for C5 (amended) at the sample request and configuration. -/
theorem no_ingested_at_stamp_witness :
    ∃ act ob,
      http_trigger cfgOk pZero nowSample uuidSample ⟨.ok (.obj bodyOk), none⟩ =
        (.ok ob, some act) ∧
      act.content = Json.dumps (.obj bodyOk) ∧
      ob.receivedTimestamp = "2025-12-16T15:42:30.123Z" ∧
      ob.receivedSensor = sensorSample ∧ ob.receivedIsFall = false :=
  no_ingested_at_stamp cfgOk pZero nowSample uuidSample none bodyOk sensorSample
    "2025-12-16T15:42:30.123Z" false _ rfl rfl rfl rfl rfl
    ⟨"functoblob-data", rfl, by decide⟩ rfl

/-- C6: the all-zero sensor vector scores exactly 0.7, and with the
inclusive threshold `THRESHOLD = 0.7` the server judges it a fall. -/
theorem zero_vector_boundary :
    THRESHOLD = 0.7 ∧ calcFallScore 0 0 0 0 0 0 = 0.7 ∧
    serverIsFall (calcFallScore 0 0 0 0 0 0) := by
  have h0 : Real.sqrt ((0 : ℝ) ^ 2 + 0 ^ 2 + 0 ^ 2) = 0 := by simp
  have habs : |(0 : ℝ) - 9.81| = 9.81 := by
    rw [zero_sub, abs_neg]
    exact abs_of_nonneg (by norm_num)
  have hs : calcFallScore 0 0 0 0 0 0 = 0.7 := by
    rw [calcFallScore_def, h0, habs]
    norm_num [min_def, max_def]
  refine ⟨rfl, hs, ?_⟩
  show THRESHOLD ≤ calcFallScore 0 0 0 0 0 0
  rw [hs]
  norm_num [THRESHOLD]

/-- C7: any sensor vector whose acceleration magnitude is exactly 9.81 and
whose gyro magnitude is 0 scores 0, and the server does not judge it a
fall. -/
theorem rest_vector_zero_score (ax ay az gx gy gz : ℝ)
    (hA : Real.sqrt (ax ^ 2 + ay ^ 2 + az ^ 2) = 9.81)
    (hG : Real.sqrt (gx ^ 2 + gy ^ 2 + gz ^ 2) = 0) :
    calcFallScore ax ay az gx gy gz = 0 ∧
    ¬ serverIsFall (calcFallScore ax ay az gx gy gz) := by
  have hs : calcFallScore ax ay az gx gy gz = 0 := by
    rw [calcFallScore_def, hA, hG, sub_self, abs_zero]
    norm_num [min_def, max_def]
  refine ⟨hs, ?_⟩
  rw [hs]
  intro h
  have h7 : (0.7 : ℝ) ≤ 0 := h
  norm_num at h7

/-- Witness for C7 at the vector `(0, 0, 9.81, 0, 0, 0)`. -/
theorem rest_vector_zero_score_witness :
    calcFallScore 0 0 9.81 0 0 0 = 0 ∧ ¬ serverIsFall (calcFallScore 0 0 9.81 0 0 0) :=
  rest_vector_zero_score 0 0 9.81 0 0 0
    (by rw [show (0 : ℝ) ^ 2 + 0 ^ 2 + 9.81 ^ 2 = 9.81 ^ 2 by norm_num]
        exact Real.sqrt_sq (by norm_num))
    (by simp)

/-- C8: every numeric sensor vector scores within `[0, 1]`, however
extreme the inputs. -/
theorem score_in_unit_interval (ax ay az gx gy gz : ℝ) :
    0 ≤ calcFallScore ax ay az gx gy gz ∧ calcFallScore ax ay az gx gy gz ≤ 1 := by
  refine ⟨?_, ?_⟩ <;> rw [calcFallScore_def]
  · exact le_max_left _ _
  · exact max_le (by norm_num) (min_le_left _ _)

/-- C9: whatever happens — parse failure, missing webhook configuration,
or any forwarding outcome — the queue consumer acknowledges the message
and never lets an exception propagate. -/
theorem queue_consumer_always_acks (parsedBody : Option Json) (webhookUrl : Option String)
    (outcome : ForwardOutcome) :
    (processQueueMessage parsedBody webhookUrl outcome).acknowledged = true ∧
    (processQueueMessage parsedBody webhookUrl outcome).exceptionPropagated = false := by
  cases parsedBody <;> cases webhookUrl <;> cases outcome <;> exact ⟨rfl, rfl⟩

/-- C10: every successfully ingested request is persisted as exactly the
JSON serialization of the original body — no computed or server-stamped
field is added — at `fall-detection/{yyyy}/{MM}/{dd}/{uuid}.json` derived
from the server's current UTC date, in always-overwrite mode. -/
theorem raw_body_persisted_exact (cfg : BlobConfig) (p : String → Option ℚ) (now : Date)
    (uuid : String) (pk : Option String) (fields sf : List (String × Json)) (ts : String)
    (b : Bool) (score : ℝ)
    (hts : dictGet fields "timestamp" = some (.str ts))
    (hsf : dictGet fields "sensor" = some (.obj sf))
    (hb : dictGet fields "isFall" = some (.bool b))
    (hscore : _calc_fall_score p sf = .ok score)
    (hclient : cfg.hasServiceClient = true)
    (hname : ∃ n, cfg.containerName = some n ∧ n ≠ "")
    (hout : cfg.uploadOutcome = .ok ()) :
    (http_trigger cfg p now uuid ⟨.ok (.obj fields), pk⟩).2 =
      some { path := "fall-detection/" ++ formatDatePath now ++ "/" ++ uuid ++ ".json"
             content := Json.dumps (.obj fields)
             overwrite := true }
  ∧ (http_trigger cfg p now uuid ⟨.ok (.obj fields), pk⟩).1.status = 200 := by
  have hup := _upload_to_blob_ok cfg now uuid (.obj fields) hclient hname hout
  rw [http_trigger_upload_ok cfg p now uuid pk fields sf ts b score _ hts hsf hb hscore hup]
  exact ⟨rfl, rfl⟩

/-- Witness for C10 at the sample request, date and uuid. -/
theorem raw_body_persisted_exact_witness :
    (http_trigger cfgOk pZero nowSample uuidSample ⟨.ok (.obj bodyOk), none⟩).2 =
      some { path := "fall-detection/" ++ formatDatePath nowSample ++ "/" ++ uuidSample ++ ".json"
             content := Json.dumps (.obj bodyOk)
             overwrite := true }
  ∧ (http_trigger cfgOk pZero nowSample uuidSample ⟨.ok (.obj bodyOk), none⟩).1.status = 200 :=
  raw_body_persisted_exact cfgOk pZero nowSample uuidSample none bodyOk sensorSample
    "2025-12-16T15:42:30.123Z" false _ rfl rfl rfl rfl rfl
    ⟨"functoblob-data", rfl, by decide⟩ rfl

end HarMoni
